import Mathlib

/-!
Verification development for the LighthouseLayoutCoach core
(`lighthouse_layout_coach` Python package).

The Python floats are embedded as exact rationals (`ℚ`).  The only
operations of the source that have no exact rational counterpart are the
transcendental library calls (`math.sqrt`, `math.hypot`, `math.sin`,
`math.cos`, `math.atan2` composed with `degrees`/`radians`) and the
decimal string formatting of floats (`f"{x:.1f}"` …).  Those primitives
are collected in a `RealFns` record and every embedded function is
parameterised by it; every theorem below is proved for *all*
instantiations of the record, so in particular for the true real-valued
functions.  The single place where the source *branches* on a
transcendental value — the field-of-view test `margin >= 0.0` of
`station_sees_point` — is embedded by an exact algebraic equivalent
(see `station_sees_point_ok`), so that visibility is decidable.
-/

namespace LLC

/-- 3-vector of exact rationals (embeds the Python `Vec3` float triple). -/
structure Vec3 where
  x : ℚ
  y : ℚ
  z : ℚ
deriving DecidableEq

/-- Row-major 3×3 matrix (embeds the Python `Mat3` nested float tuples);
`mIJ` is `rot[I][J]` of the source. -/
structure Mat3 where
  m00 : ℚ
  m01 : ℚ
  m02 : ℚ
  m10 : ℚ
  m11 : ℚ
  m12 : ℚ
  m20 : ℚ
  m21 : ℚ
  m22 : ℚ
deriving DecidableEq

/-- 2D point, `Tuple[float, float]` in the source. -/
abbrev Point2 := ℚ × ℚ

/-- Abstract transcendental / formatting primitives of the Python `math`
module and float `format`.  `sqrtQ` is `math.sqrt`, `hypotQ` is
`math.hypot`, `sinDeg`/`cosDeg` are `math.sin(math.radians ·)` /
`math.cos(math.radians ·)`, `atan2Deg y x` is
`math.degrees(math.atan2(y, x))`, and `fmtF1`/`fmtF0`/`fmtSignF0` are the
`.1f`, `.0f` and `+.0f` float format specs.  No claim below depends on
the values these return, which is made precise by quantifying every
theorem over the whole record. -/
structure RealFns where
  sqrtQ : ℚ → ℚ
  hypotQ : ℚ → ℚ → ℚ
  sinDeg : ℚ → ℚ
  cosDeg : ℚ → ℚ
  atan2Deg : ℚ → ℚ → ℚ
  fmtF1 : ℚ → String
  fmtF0 : ℚ → String
  fmtSignF0 : ℚ → String

/-- A concrete (arbitrary) instantiation of the abstract primitives, used
to state closed counterexamples; the refuted facts do not depend on the
primitives' values. -/
def zeroFns : RealFns where
  sqrtQ := fun _ => 0
  hypotQ := fun _ _ => 0
  sinDeg := fun _ => 0
  cosDeg := fun _ => 0
  atan2Deg := fun _ _ => 0
  fmtF1 := fun _ => ""
  fmtF0 := fun _ => ""
  fmtSignF0 := fun _ => ""

/-! ### steamvr_io.py geometry helpers -/

/-- `steamvr_io.vec_sub`. -/
def vec_sub (a b : Vec3) : Vec3 :=
  ⟨a.x - b.x, a.y - b.y, a.z - b.z⟩

/-- `steamvr_io.vec_len` (uses `math.sqrt`). -/
def vec_len (F : RealFns) (v : Vec3) : ℚ :=
  F.sqrtQ (v.x * v.x + v.y * v.y + v.z * v.z)

/-- `steamvr_io.vec_norm`. -/
def vec_norm (F : RealFns) (v : Vec3) : Vec3 :=
  let l := vec_len F v
  if l ≤ 1e-9 then ⟨0, 0, 0⟩ else ⟨v.x / l, v.y / l, v.z / l⟩

/-- `steamvr_io.rot_transpose`. -/
def rot_transpose (r : Mat3) : Mat3 :=
  ⟨r.m00, r.m10, r.m20, r.m01, r.m11, r.m21, r.m02, r.m12, r.m22⟩

/-- `steamvr_io.mat3_mul_vec3`. -/
def mat3_mul_vec3 (r : Mat3) (v : Vec3) : Vec3 :=
  ⟨r.m00 * v.x + r.m01 * v.y + r.m02 * v.z,
   r.m10 * v.x + r.m11 * v.y + r.m12 * v.z,
   r.m20 * v.x + r.m21 * v.y + r.m22 * v.z⟩

/-- `steamvr_io.forward_from_rotation`: OpenVR forward is the negated
third column. -/
def forward_from_rotation (r : Mat3) : Vec3 :=
  ⟨-r.m02, -r.m12, -r.m22⟩

/-- `Pose` dataclass shared by `steamvr_io.py` and `state_server.py`. -/
structure Pose where
  position_m : Vec3
  rotation_3x3 : Mat3
  pose_valid : Bool
  tracking_result : Int
deriving DecidableEq

/-- `Pose.yaw_deg` property: yaw of the forward vector in the XY plane,
`degrees(atan2(fwd.y, fwd.x))`. -/
def pose_yaw_deg (F : RealFns) (p : Pose) : ℚ :=
  let fwd := forward_from_rotation p.rotation_3x3
  F.atan2Deg fwd.y fwd.x

/-! ### Angle wrapping (metrics._wrap_deg, recommendations._angle_diff_deg,
state_server._angle_diff_deg) -/

/-- Python float `%` with a positive modulus: `x % m = x - m * floor (x/m)`
(the result carries the sign of the modulus). -/
def pyMod (x m : ℚ) : ℚ := x - m * ⌊x / m⌋

/-- `metrics._wrap_deg`: `(a + 180.0) % 360.0 - 180.0`. -/
def wrap_deg (a : ℚ) : ℚ := pyMod (a + 180) 360 - 180

/-- `recommendations._angle_diff_deg` and `state_server._angle_diff_deg`
(textually identical): `(a - b + 180.0) % 360.0 - 180.0`. -/
def angle_diff_deg (a b : ℚ) : ℚ := pyMod (a - b + 180) 360 - 180

/-! ### chaperone.py -/

/-- `chaperone.PlayArea`. -/
structure PlayArea where
  corners_m : List Point2
  source : String
  warning : Option String := none

/-- `PlayArea.centroid` property. -/
def PlayArea.centroid (pa : PlayArea) : Point2 :=
  let xs := pa.corners_m.map Prod.fst
  let ys := pa.corners_m.map Prod.snd
  (xs.sum / max 1 (xs.length : ℚ), ys.sum / max 1 (ys.length : ℚ))

/-! ### Point-in-polygon (coverage.point_in_poly and
log_data._point_in_poly) -/

/-- Edge list of a polygon: the source iterates `poly[i], poly[(i+1) % n]`
for `i = 0 .. n-1`. -/
def polyEdges (poly : List Point2) : List (Point2 × Point2) :=
  poly.zip (poly.rotate 1)

/-- One loop iteration of `coverage.point_in_poly`: flip `inside` when the
edge straddles the query level and the ray-cast comparison holds; the
denominator is guarded as `y1 - y0 + 1e-12`. -/
def edgeFlipCov (pt : Point2) (inside : Bool) (e : Point2 × Point2) : Bool :=
  let x := pt.1; let y := pt.2
  let x0 := e.1.1; let y0 := e.1.2
  let x1 := e.2.1; let y1 := e.2.2
  if (decide (y0 > y) ≠ decide (y1 > y)) ∧
      x < (x1 - x0) * (y - y0) / (y1 - y0 + 1e-12) + x0 then
    !inside
  else inside

/-- `coverage.point_in_poly` (ray casting). -/
def point_in_poly (pt : Point2) (poly : List Point2) : Bool :=
  (polyEdges poly).foldl (edgeFlipCov pt) false

/-- One loop iteration of `log_data._point_in_poly`; identical to
`edgeFlipCov` except the denominator guard `max(1e-9, y1 - y0)`. -/
def edgeFlipLog (pt : Point2) (inside : Bool) (e : Point2 × Point2) : Bool :=
  let x := pt.1; let y := pt.2
  let x0 := e.1.1; let y0 := e.1.2
  let x1 := e.2.1; let y1 := e.2.2
  if (decide (y0 > y) ≠ decide (y1 > y)) ∧
      x < (x1 - x0) * (y - y0) / max 1e-9 (y1 - y0) + x0 then
    !inside
  else inside

/-- `log_data._point_in_poly` (the historical-ingest copy). -/
def log_point_in_poly (pt : Point2) (poly : List Point2) : Bool :=
  (polyEdges poly).foldl (edgeFlipLog pt) false

/-! ### coverage.py -/

/-- `coverage.StationPose`. -/
structure StationPose where
  serial : String
  position_m : Vec3
  rotation_3x3 : Mat3
deriving DecidableEq

/-- `coverage.CoverageResult` (scores are `0/1/2` ints per grid cell). -/
structure CoverageResult where
  grid_origin_m : Point2
  grid_step_m : ℚ
  grid_w : ℕ
  grid_h : ℕ
  inside_mask : List Bool
  score_foot : List ℕ
  score_waist : List ℕ
  overlap_pct_foot : ℚ
  overlap_pct_waist : ℚ
  overall_score : ℚ
  station_sync_warning : Option String := none

/-- `coverage.FOV_YAW_DEG`. -/
def FOV_YAW_DEG : ℚ := 60

/-- `coverage.FOV_PITCH_DEG`. -/
def FOV_PITCH_DEG : ℚ := 45

/-- `coverage._yaw_pitch_from_station_to_point`:
`dir = normalize(point - station_pos)`, `lv = rotᵀ · dir`,
`yaw = degrees(atan2(lv.x, -lv.z))`, `pitch = degrees(atan2(lv.y, -lv.z))`. -/
def yaw_pitch_from_station_to_point (F : RealFns) (station_rot : Mat3)
    (station_pos point : Vec3) : ℚ × ℚ :=
  let dir_world := vec_norm F (vec_sub point station_pos)
  let lv := mat3_mul_vec3 (rot_transpose station_rot) dir_world
  (F.atan2Deg lv.x (-lv.z), F.atan2Deg lv.y (-lv.z))

/-- Exact algebraic embedding of the Boolean part of
`coverage.station_sees_point`, i.e. of `margin >= 0.0` with
`margin = min(60 - |yaw|, 45 - |pitch|)` and `yaw = atan2(lv.x, w)`,
`pitch = atan2(lv.y, w)`, `w = -lv.z`, `lv = rotᵀ · normalize(d)`,
`d = point - station_pos`.

Justification of the algebra (for the true real `atan2`): for `|θ| < 90°`,
`|atan2(t, w)| ≤ θ` iff `w ≥ 0 ∧ t² ≤ tan²θ · w²` (including the corner
cases `w = 0`: `atan2(0,0) = 0` and `atan2(t,0) = ±90°`); with
`tan²60° = 3` and `tan²45° = 1` the test `margin ≥ 0`, i.e.
`|yaw| ≤ 60 ∧ |pitch| ≤ 45`, becomes
`-lv.z ≥ 0 ∧ lv.x² ≤ 3·lv.z² ∧ lv.y² ≤ lv.z²`, which is scale-invariant,
so the normalisation of `d` can be dropped.  When `‖d‖ ≤ 1e-9` the
source's `vec_norm` returns the zero vector, both `atan2` calls yield `0`
and the margin is `min(60, 45) = 45 ≥ 0`: visible. -/
def station_sees_point_ok (station : StationPose) (point : Vec3) : Bool :=
  let d := vec_sub point station.position_m
  if d.x * d.x + d.y * d.y + d.z * d.z ≤ 1e-18 then
    true
  else
    let lv := mat3_mul_vec3 (rot_transpose station.rotation_3x3) d
    decide (0 ≤ -lv.z ∧ lv.x ^ 2 ≤ 3 * lv.z ^ 2 ∧ lv.y ^ 2 ≤ lv.z ^ 2)

/-- `coverage.station_sees_point`, returning `(likely_visible, margin_deg)`.
The source computes `margin` with `atan2` (abstract here) and returns
`(margin >= 0.0, margin)`; the Boolean is embedded by its exact algebraic
characterisation `station_sees_point_ok` (see its docstring). -/
def station_sees_point (F : RealFns) (station : StationPose) (point : Vec3) :
    Bool × ℚ :=
  let yp := yaw_pitch_from_station_to_point F station.rotation_3x3 station.position_m point
  let margin := min (FOV_YAW_DEG - |yp.1|) (FOV_PITCH_DEG - |yp.2|)
  (station_sees_point_ok station point, margin)

/-- `coverage.station_to_station_visibility`: `None` unless exactly two
stations; otherwise a warning string when either mutual direction fails. -/
def station_to_station_visibility (F : RealFns) (stations : List StationPose) :
    Option String :=
  match stations with
  | [a, b] =>
    let as_ := station_sees_point F a b.position_m
    let bs := station_sees_point F b a.position_m
    if as_.1 && bs.1 then none
    else some
      ("Heuristic sync check: Station A/B may not have line-of-sight to each other. " ++
       "Base Station 1.0 often requires optical sync; consider re-aiming or using a sync cable." ++
       " (A→B margin " ++ F.fmtF1 as_.2 ++ "°, B→A margin " ++ F.fmtF1 bs.2 ++ "°)")
  | _ => none

/-- Python `min(iterable)` of a non-empty rational list (the `0` default is
never reached on the non-empty lists the source applies it to). -/
def listMin (l : List ℚ) : ℚ := l.foldl min (l.headD 0)

/-- Python `max(iterable)` of a non-empty rational list. -/
def listMax (l : List ℚ) : ℚ := l.foldl max (l.headD 0)

/-- Per-cell result of the `compute_coverage` grid loop body
(lines "in_poly = point_in_poly(...)" through the weighted accumulation):
`cw`/`cs` are the cell's weight and score contribution (`0` outside). -/
structure CovCell where
  inside : Bool
  sf : ℕ
  sw : ℕ
  cw : ℚ
  cs : ℚ

/-- Body of the `compute_coverage` double loop for the cell centred at
`(x, y)`; mirrors the source: outside cells score `0` and contribute
nothing, inside cells count the stations that see the foot/waist points
(clamped to `2`) and accumulate the weighting heuristic. -/
def coverageCell (F : RealFns) (corners : List Point2) (stations : List StationPose)
    (centroid : Point2) (max_r foot_z_m waist_z_m : ℚ) (x y : ℚ) : CovCell :=
  let in_poly := point_in_poly (x, y) corners
  if in_poly then
    let foot_pt : Vec3 := ⟨x, y, foot_z_m⟩
    let waist_pt : Vec3 := ⟨x, y, waist_z_m⟩
    let f_vis := min 2 (stations.countP (fun s => (station_sees_point F s foot_pt).1))
    let w_vis := min 2 (stations.countP (fun s => (station_sees_point F s waist_pt).1))
    let r := F.hypotQ (x - centroid.1) (y - centroid.2) / max_r
    let center_w := (1 - min 1 r) ^ 2
    let edge_w := 1 - center_w
    let cell_w := 0.6 * (0.7 * center_w + 0.3 * edge_w) + 0.4 * (0.9 * center_w + 0.1 * edge_w)
    let cell_score := 0.6 * ((f_vis : ℚ) / 2) + 0.4 * ((w_vis : ℚ) / 2)
    ⟨true, f_vis, w_vis, cell_w, cell_score⟩
  else
    ⟨false, 0, 0, 0, 0⟩

/-- The cell list of `compute_coverage`, rows outermost (`yi` outer, `xi`
inner), matching the append order of the source's lists. -/
def coverageCells (F : RealFns) (corners : List Point2) (stations : List StationPose)
    (centroid : Point2) (max_r foot_z_m waist_z_m min_x min_y grid_step_m : ℚ)
    (w h : ℕ) : List CovCell :=
  (List.range h).flatMap (fun yi =>
    (List.range w).map (fun xi =>
      coverageCell F corners stations centroid max_r foot_z_m waist_z_m
        (min_x + xi * grid_step_m) (min_y + yi * grid_step_m)))

/-- `coverage.compute_coverage` (defaults `grid_step_m = 0.10`,
`foot_z_m = 0.15`, `waist_z_m = 1.00` are passed explicitly here). -/
def compute_coverage (F : RealFns) (play_area : PlayArea) (stations : List StationPose)
    (grid_step_m foot_z_m waist_z_m : ℚ) : CoverageResult :=
  let corners := play_area.corners_m
  let xs := corners.map Prod.fst
  let ys := corners.map Prod.snd
  let min_x := listMin xs
  let max_x := listMax xs
  let min_y := listMin ys
  let max_y := listMax ys
  let w : ℕ := max 1 (Int.toNat (⌈(max_x - min_x) / grid_step_m⌉ + 1))
  let h : ℕ := max 1 (Int.toNat (⌈(max_y - min_y) / grid_step_m⌉ + 1))
  let centroid := play_area.centroid
  let max_r := max 1e-6
    (listMax (corners.map (fun c => F.hypotQ (c.1 - centroid.1) (c.2 - centroid.2))))
  let cells := coverageCells F corners stations centroid max_r foot_z_m waist_z_m
    min_x min_y grid_step_m w h
  let inside_count := cells.countP (·.inside)
  let overlap2_foot := cells.countP (fun c => c.inside && decide (c.sf = 2))
  let overlap2_waist := cells.countP (fun c => c.inside && decide (c.sw = 2))
  let weighted_sum := (cells.map (fun c => c.cw * c.cs)).sum
  let weighted_max := (cells.map (fun c => c.cw)).sum
  { grid_origin_m := (min_x, min_y)
    grid_step_m := grid_step_m
    grid_w := w
    grid_h := h
    inside_mask := cells.map (·.inside)
    score_foot := cells.map (·.sf)
    score_waist := cells.map (·.sw)
    overlap_pct_foot := if inside_count = 0 then 0 else 100 * overlap2_foot / inside_count
    overlap_pct_waist := if inside_count = 0 then 0 else 100 * overlap2_waist / inside_count
    overall_score := if weighted_max ≤ 1e-9 then 0 else 100 * (weighted_sum / weighted_max)
    station_sync_warning := station_to_station_visibility F stations }

/-- `coverage.station_yaw_pitch_deg`. -/
def station_yaw_pitch_deg (F : RealFns) (station : StationPose) : ℚ × ℚ :=
  let fwd := forward_from_rotation station.rotation_3x3
  (F.atan2Deg fwd.y fwd.x, F.atan2Deg fwd.z (F.sqrtQ (fwd.x * fwd.x + fwd.y * fwd.y)))

/-! ### metrics.py -/

/-- `metrics.DropoutEvent`; the `station_margins_deg` dict is an
insertion-ordered association list (see `dictSet`). -/
structure DropoutEvent where
  start_s : ℚ
  end_s : ℚ
  duration_s : ℚ
  hmd_yaw_deg : Option ℚ
  likely_station_serial : Option String
  station_margins_deg : List (String × ℚ)
deriving DecidableEq

/-- `metrics.TrackerMetrics`. -/
structure TrackerMetrics where
  serial : String
  role : String
  dropout_count : ℕ
  dropout_duration_s : ℚ
  jitter_pos_rms_m_p50 : ℚ
  jitter_pos_rms_m_p95 : ℚ
  jitter_yaw_deg_p50 : ℚ
  jitter_yaw_deg_p95 : ℚ
  dropout_yaw_bins : List (String × ℕ)
  dropouts : List DropoutEvent
deriving DecidableEq

/-- `metrics.SessionMetrics`. -/
structure SessionMetrics where
  per_tracker : List TrackerMetrics
deriving DecidableEq

/-- `metrics.is_tracking_ok` (`TrackingResult_Running_OK` is `200`). -/
def is_tracking_ok (pose : Option Pose) : Bool :=
  match pose with
  | none => false
  | some p => p.pose_valid && p.tracking_result == 200

/-- Python 3 `round` to an integer: round half to even. -/
def pyRound (q : ℚ) : ℤ :=
  let f := ⌊q⌋
  let r := q - f
  if r < 1 / 2 then f
  else if 1 / 2 < r then f + 1
  else if f % 2 = 0 then f else f + 1

/-- `metrics._percentile`: nearest-rank on the sorted list, `0.0` for an
empty list. -/
def percentile (values : List ℚ) (pct : ℚ) : ℚ :=
  if values.isEmpty then 0
  else
    let xs := values.insertionSort (· ≤ ·)
    let k0 : ℤ := pyRound ((pct / 100) * ((xs.length : ℚ) - 1))
    let k : ℤ := max 0 (min ((xs.length : ℤ) - 1) k0)
    xs.getD k.toNat 0

/-- `metrics._yaw_bin_label` with the default `bin_deg = 10`:
`f"{start}-{end}"` with `start = int((yaw % 360) // 10) * 10`. -/
def yaw_bin_label (yaw_deg : ℚ) : String :=
  let y := pyMod yaw_deg 360
  let start : ℤ := ⌊y / 10⌋ * 10
  toString start ++ "-" ++ toString (start + 10)

/-- Python `dict` assignment `d[k] = v`: overwrite in place if the key
exists, otherwise append (insertion order preserved). -/
def dictSet {α : Type} (l : List (String × α)) (k : String) (v : α) : List (String × α) :=
  if l.any (fun p => p.1 = k) then
    l.map (fun p => if p.1 = k then (k, v) else p)
  else
    l ++ [(k, v)]

/-- Python `d[k] = d.get(k, 0) + 1`. -/
def dictBump (l : List (String × ℕ)) (k : String) : List (String × ℕ) :=
  dictSet l k (((l.lookup k).getD 0) + 1)

/-- `metrics._infer_likely_station`: build the margin and visibility dicts
over all stations; with exactly two stations, if exactly one is visible
return the serial of the *non-visible* one, else `None`; always return
the margins. -/
def infer_likely_station (F : RealFns) (stations : List StationPose)
    (tracker_pose : Pose) : Option String × List (String × ℚ) :=
  let env := stations.foldl
    (fun (acc : List (String × ℚ) × List (String × Bool)) s =>
      let om := station_sees_point F s tracker_pose.position_m
      (dictSet acc.1 s.serial om.2, dictSet acc.2 s.serial om.1))
    ([], [])
  let margins := env.1
  let visible := env.2
  match stations with
  | [sa, sb] =>
    let s0 := sa.serial
    let s1 := sb.serial
    if ((visible.lookup s0).getD false) && !((visible.lookup s1).getD false) then
      (some s1, margins)
    else if ((visible.lookup s1).getD false) && !((visible.lookup s0).getD false) then
      (some s0, margins)
    else
      (none, margins)
  | _ => (none, margins)

/-- One element of the diagnostic sample stream's per-tracker dict
(`{"pos": [x,y,z], "yaw_deg": w, "ok": b}`); every key may be absent, the
source reads them with `dict.get` defaults. -/
structure TrackerSample where
  pos : Option Vec3 := none
  yaw_deg : Option ℚ := none
  ok : Option Bool := none
deriving DecidableEq

/-- One diagnostic sample (`{"t_s": t, "hmd_yaw_deg": y|None, "trackers": {...}}`). -/
structure Sample where
  t_s : ℚ
  hmd_yaw_deg : Option ℚ := none
  trackers : List (String × TrackerSample) := []
deriving DecidableEq

/-- The per-tracker loop state of `metrics.analyze_diagnostic_session`
(`ok_prev`, the open-dropout registers, the accumulated outputs and the
rolling 1 s window). -/
structure TrackState where
  ok_prev : Bool := false
  dropout_start : Option ℚ := none
  dropout_yaw : Option ℚ := none
  dropout_pose : Option Pose := none
  dropouts : List DropoutEvent := []
  yaw_bins : List (String × ℕ) := []
  pos_jitter : List ℚ := []
  yaw_jitter : List ℚ := []
  window : List (ℚ × Vec3 × ℚ) := []

/-- The identity rotation the source uses for the synthetic pose rebuilt
from a sample (`rot not required here`). -/
def idMat3 : Mat3 := ⟨1, 0, 0, 0, 1, 0, 0, 0, 1⟩

/-- The jitter block of the sample loop (lines `if ok and tr is not None:`
… `yaw_jitter.append(...)`): append to the 1 s window, trim it, and when
it holds ≥ 5 entries push a positional RMS and a circular yaw std. -/
def jitterUpdate (F : RealFns) (st : TrackState) (tr : Option TrackerSample)
    (ok : Bool) (t : ℚ) : TrackState :=
  match tr with
  | none => st
  | some tsam =>
    if ok then
      let pos := tsam.pos.getD ⟨0, 0, 0⟩
      let yaw := tsam.yaw_deg.getD 0
      let window1 := st.window ++ [(t, pos, yaw)]
      let t_min := t - 1
      let window2 := window1.dropWhile (fun e => e.1 < t_min)
      if 5 ≤ window2.length then
        let n : ℚ := (window2.length : ℚ)
        let mx := (window2.map (fun e => e.2.1.x)).sum / n
        let my := (window2.map (fun e => e.2.1.y)).sum / n
        let mz := (window2.map (fun e => e.2.1.z)).sum / n
        let vx := (window2.map (fun e => (e.2.1.x - mx) ^ 2)).sum / n
        let vy := (window2.map (fun e => (e.2.1.y - my) ^ 2)).sum / n
        let vz := (window2.map (fun e => (e.2.1.z - mz) ^ 2)).sum / n
        let pos_rms := F.sqrtQ (vx + vy + vz)
        let yaws := window2.map (fun e => e.2.2)
        let ssum := (yaws.map F.sinDeg).sum
        let csum := (yaws.map F.cosDeg).sum
        let mean := if ssum ≠ 0 ∨ csum ≠ 0 then F.atan2Deg ssum csum else yaws.headD 0
        let diffs := yaws.map (fun yy => wrap_deg (yy - mean))
        let yaw_std := F.sqrtQ ((diffs.map (fun d => d * d)).sum / (diffs.length : ℚ))
        { st with window := window2,
                  pos_jitter := st.pos_jitter ++ [pos_rms],
                  yaw_jitter := st.yaw_jitter ++ [yaw_std] }
      else
        { st with window := window2 }
    else st

/-- Closing a dropout that started at `startv` and ends at `endt`
(both the `false → true` transition and the end-of-stream close build the
event this way): `dur = max(0.0, end - start)`, occluder inference only
when a pose was captured and stations are present. -/
def closeDropout (F : RealFns) (stations : List StationPose) (startv endt : ℚ)
    (dyaw : Option ℚ) (dpose : Option Pose) : DropoutEvent :=
  let dur := max 0 (endt - startv)
  let lm : Option String × List (String × ℚ) :=
    match dpose with
    | some p => if stations.isEmpty then (none, []) else infer_likely_station F stations p
    | none => (none, [])
  ⟨startv, endt, dur, dyaw, lm.1, lm.2⟩

/-- One iteration of the sample loop of `analyze_diagnostic_session` for
tracker `serial`: jitter block, then the edge-triggered dropout machine,
then `ok_prev = ok`. -/
def trackerStep (F : RealFns) (stations : List StationPose) (serial : String)
    (st : TrackState) (s : Sample) : TrackState :=
  let t := s.t_s
  let tr := s.trackers.lookup serial
  let ok := match tr with
    | none => false
    | some tsam => tsam.ok.getD false
  let pose : Option Pose := match tr with
    | none => none
    | some tsam => some ⟨tsam.pos.getD ⟨0, 0, 0⟩, idMat3, true, 200⟩
  let stJ := jitterUpdate F st tr ok t
  let stD :=
    if st.ok_prev ∧ ¬ok then
      { stJ with
        dropout_start := some t,
        dropout_yaw := s.hmd_yaw_deg,
        yaw_bins := match s.hmd_yaw_deg with
          | some yv => dictBump stJ.yaw_bins (yaw_bin_label yv)
          | none => stJ.yaw_bins,
        dropout_pose := pose }
    else
      match st.dropout_start with
      | some v =>
        if ¬st.ok_prev ∧ ok then
          { stJ with
            dropouts := stJ.dropouts ++
              [closeDropout F stations v t st.dropout_yaw st.dropout_pose],
            dropout_start := none,
            dropout_yaw := none,
            dropout_pose := none }
        else stJ
      | none => stJ
  { stD with ok_prev := ok }

/-- The final loop state for one tracker after all samples. -/
def trackerFinal (F : RealFns) (stations : List StationPose) (samples : List Sample)
    (serial : String) : TrackState :=
  samples.foldl (trackerStep F stations serial) {}

/-- The `If session ends during dropout, close it at last timestamp`
block: when a dropout is still open and samples are non-empty, close it
at `samples[-1].t_s`. -/
def close_open_dropout (F : RealFns) (stations : List StationPose)
    (samples : List Sample) (st : TrackState) : List DropoutEvent :=
  match st.dropout_start, samples.getLast? with
  | some v, some slast =>
    st.dropouts ++ [closeDropout F stations v slast.t_s st.dropout_yaw st.dropout_pose]
  | _, _ => st.dropouts

/-- Assembly of one `TrackerMetrics` from the final loop state. -/
def tracker_metrics_for (F : RealFns) (stations : List StationPose)
    (samples : List Sample) (roles : List (String × String)) (serial : String) :
    TrackerMetrics :=
  let role := (roles.lookup serial).getD "Unknown"
  let st := trackerFinal F stations samples serial
  let dropouts := close_open_dropout F stations samples st
  { serial := serial
    role := role
    dropout_count := dropouts.length
    dropout_duration_s := (dropouts.map (·.duration_s)).sum
    jitter_pos_rms_m_p50 := percentile st.pos_jitter 50
    jitter_pos_rms_m_p95 := percentile st.pos_jitter 95
    jitter_yaw_deg_p50 := percentile st.yaw_jitter 50
    jitter_yaw_deg_p95 := percentile st.yaw_jitter 95
    dropout_yaw_bins := st.yaw_bins
    dropouts := dropouts }

/-- `metrics.analyze_diagnostic_session`: per-tracker analysis over the
sorted role serials. -/
def analyze_diagnostic_session (F : RealFns) (samples : List Sample)
    (roles : List (String × String)) (stations : List StationPose) : SessionMetrics :=
  let serials := (roles.map Prod.fst).insertionSort (· ≤ ·)
  ⟨serials.map (tracker_metrics_for F stations samples roles)⟩

/-! ### recommendations.py -/

/-- `recommendations.Recommendation`. -/
structure Recommendation where
  target : String
  text : String
  confidence : String
deriving DecidableEq

/-- `recommendations._desired_yaw_deg`. -/
def desired_yaw_deg (F : RealFns) (from_xy to_xy : Point2) : ℚ :=
  F.atan2Deg (to_xy.2 - from_xy.2) (to_xy.1 - from_xy.1)

/-- The `likely_station_counts` accumulation of `generate_recommendations`
(dropouts whose `likely_station_serial` is truthy, i.e. present and
non-empty). -/
def likelyStationCounts (metrics : Option SessionMetrics) : List (String × ℕ) :=
  match metrics with
  | none => []
  | some m =>
    m.per_tracker.foldl
      (fun acc tm =>
        tm.dropouts.foldl
          (fun acc2 d =>
            match d.likely_station_serial with
            | some s => if s = "" then acc2 else dictBump acc2 s
            | none => acc2)
          acc)
      []

/-- The `worst_yaw_bin` scan of `generate_recommendations` (strictly
larger count wins; first maximal bin in iteration order is kept). -/
def worstYawBin (metrics : Option SessionMetrics) : Option String × ℕ :=
  match metrics with
  | none => (none, 0)
  | some m =>
    m.per_tracker.foldl
      (fun acc tm =>
        tm.dropout_yaw_bins.foldl
          (fun acc2 lc => if acc2.2 < lc.2 then (some lc.1, lc.2) else acc2)
          acc)
      (none, 0)

/-- The per-station rule block of `generate_recommendations` (yaw toward
centroid, mount height, tilt, diagnostics-culprit), for the station at
position `idx` of `stations[:2]`. -/
def stationRecs (F : RealFns) (centroid : Point2) (labels : List (String × String))
    (likely_counts : List (String × ℕ)) (idx : ℕ) (s : StationPose) :
    List Recommendation :=
  let label := (labels.lookup s.serial).getD ("Station " ++ (if idx = 0 then "A" else "B"))
  let yp := station_yaw_pitch_deg F s
  let yaw := yp.1
  let pitch := yp.2
  let dyaw := desired_yaw_deg F (s.position_m.x, s.position_m.y) centroid
  let yaw_err := angle_diff_deg dyaw yaw
  let r1 : List Recommendation :=
    if 6 ≤ |yaw_err| then
      [⟨label,
        "Yaw " ++ F.fmtSignF0 yaw_err ++ "° toward play area center (current yaw " ++
          F.fmtF0 yaw ++ "°, target " ++ F.fmtF0 dyaw ++ "°).",
        "Med"⟩]
    else []
  let z := s.position_m.z
  let r2 : List Recommendation :=
    if z < 2 then
      [⟨label,
        "Raise mount +" ++ F.fmtF1 (2.2 - z) ++ "m (current " ++ F.fmtF1 z ++
          "m; target ~2.1–2.4m) to reduce body occlusion.",
        if z < 1.7 then "High" else "Med"⟩]
    else []
  let dx := centroid.1 - s.position_m.x
  let dy := centroid.2 - s.position_m.y
  let horiz := F.hypotQ dx dy
  let target_pitch := F.atan2Deg (1 - z) (max 1e-6 horiz)
  let pitch_err := angle_diff_deg target_pitch pitch
  let r3 : List Recommendation :=
    if 6 ≤ |pitch_err| then
      [⟨label,
        "Tilt " ++ (if pitch_err < 0 then "down" else "up") ++ " ~" ++
          F.fmtF0 |pitch_err| ++ "° toward center (current pitch " ++ F.fmtF0 pitch ++
          "°, target " ++ F.fmtF0 target_pitch ++ "°).",
        if horiz < 1 then "Low" else "Med"⟩]
    else []
  let c := (likely_counts.lookup s.serial).getD 0
  let r4 : List Recommendation :=
    if 3 ≤ c then
      [⟨label,
        "Diagnostics: " ++ toString c ++
          " dropouts were geometrically more consistent with occlusion from this station; consider re-aiming and clearing line-of-sight.",
        if 6 ≤ c then "High" else "Med"⟩]
    else []
  r1 ++ r2 ++ r3 ++ r4

/-- All rule-generated recommendations of `generate_recommendations`, in
source append order (coverage rules, yaw-bin rule, per-station rules),
before the empty-fallback and the final sort. -/
def recsRules (F : RealFns) (play_area : PlayArea) (stations : List StationPose)
    (coverage : Option CoverageResult) (metrics : Option SessionMetrics)
    (labels : List (String × String)) : List Recommendation :=
  let centroid := play_area.centroid
  let covRecs : List Recommendation :=
    match coverage with
    | none => []
    | some cov =>
      (if cov.overlap_pct_foot < 55 then
        [⟨"General",
          "Foot-height 2-station overlap is low (" ++ F.fmtF1 cov.overlap_pct_foot ++
            "%). Favor higher mounts and slightly more downward tilt to improve tracker visibility near the floor.",
          if 35 < cov.overlap_pct_foot then "Med" else "High"⟩]
       else []) ++
      (match cov.station_sync_warning with
       | some wmsg => if wmsg = "" then [] else [⟨"General", wmsg, "Med"⟩]
       | none => [])
  let counts := likelyStationCounts metrics
  let wb := worstYawBin metrics
  let binRecs : List Recommendation :=
    match wb.1 with
    | some lab =>
      if lab ≠ "" ∧ 3 ≤ wb.2 then
        [⟨"General",
          "Dropouts cluster at HMD yaw bin " ++ lab ++
            "°. Check for body/self-occlusion or reflective surfaces in that direction (mirrors/TV/windows).",
          "Med"⟩]
      else []
    | none => []
  let stRecs := ((stations.take 2).enum).flatMap
    (fun p => stationRecs F centroid labels counts p.1 p.2)
  covRecs ++ binRecs ++ stRecs

/-- First component of `recommendations._sort_key`: `0` for targets
starting with `"Station A"`, `1` for `"Station B"`, else `2`. -/
def sort_key_rank (r : Recommendation) : ℕ :=
  if r.target.startsWith "Station A" then 0
  else if r.target.startsWith "Station B" then 1
  else 2

/-- The order `sorted(recs, key=_sort_key)` sorts by: the rank/text pair
compared lexicographically. -/
def recLE (a b : Recommendation) : Prop :=
  sort_key_rank a < sort_key_rank b ∨
    (sort_key_rank a = sort_key_rank b ∧ a.text ≤ b.text)

instance : DecidableRel recLE := fun a b => by
  unfold recLE
  infer_instance

instance : IsTrans Recommendation recLE where
  trans := by
    intro a b c hab hbc
    unfold recLE at hab hbc ⊢
    rcases hab with h1 | ⟨h1e, h1t⟩ <;> rcases hbc with h2 | ⟨h2e, h2t⟩
    · exact Or.inl (Nat.lt_trans h1 h2)
    · exact Or.inl (by omega)
    · exact Or.inl (by omega)
    · exact Or.inr ⟨h1e.trans h2e, le_trans h1t h2t⟩

instance : IsTotal Recommendation recLE where
  total := by
    intro a b
    unfold recLE
    rcases Nat.lt_trichotomy (sort_key_rank a) (sort_key_rank b) with h | h | h
    · exact Or.inl (Or.inl h)
    · rcases le_total a.text b.text with ht | ht
      · exact Or.inl (Or.inr ⟨h, ht⟩)
      · exact Or.inr (Or.inr ⟨h.symm, ht⟩)
    · exact Or.inr (Or.inl h)

/-- The `"run a 60s diagnostic test"` fallback recommendation emitted when
no rule fires. -/
def fallbackRec : Recommendation :=
  ⟨"General",
   "No strong issues detected from current geometric estimate; run a 60s diagnostic test to generate evidence-based recommendations.",
   "Low"⟩

/-- `recommendations.generate_recommendations` (the `None` default of
`station_labels_by_serial` is embedded as the empty label list). -/
def generate_recommendations (F : RealFns) (play_area : PlayArea)
    (stations : List StationPose) (coverage : Option CoverageResult)
    (metrics : Option SessionMetrics) (labels : List (String × String)) :
    List Recommendation :=
  let recs := recsRules F play_area stations coverage metrics labels
  let recs2 := if recs.isEmpty then [fallbackRec] else recs
  recs2.insertionSort recLE

/-! ### state_server.py: live tracker stats and the snapshot tracker entry -/

/-- `state_server.TrackerLiveStats`. -/
structure TrackerLiveStats where
  prev_ok : Bool := false
  dropouts : ℕ := 0
  window : List (ℚ × Vec3 × ℚ) := []
  connected : Bool := false
  tracking_ok : Bool := false
  jitter_pos_mm : ℚ := 0
  jitter_yaw_deg : ℚ := 0
  last_pos_m : Option Vec3 := none
  last_yaw_deg : ℚ := 0

/-- `state_server._compute_jitter`: `(pos_rms_mm, yaw_std_deg)`, zero for
windows shorter than 5. -/
def compute_jitter (F : RealFns) (window : List (ℚ × Vec3 × ℚ)) : ℚ × ℚ :=
  if window.length < 5 then (0, 0)
  else
    let n : ℚ := (window.length : ℚ)
    let mx := (window.map (fun e => e.2.1.x)).sum / n
    let my := (window.map (fun e => e.2.1.y)).sum / n
    let mz := (window.map (fun e => e.2.1.z)).sum / n
    let vx := (window.map (fun e => (e.2.1.x - mx) ^ 2)).sum / n
    let vy := (window.map (fun e => (e.2.1.y - my) ^ 2)).sum / n
    let vz := (window.map (fun e => (e.2.1.z - mz) ^ 2)).sum / n
    let pos_rms := F.sqrtQ (vx + vy + vz)
    let yaws := window.map (fun e => e.2.2)
    let ssum := (yaws.map F.sinDeg).sum
    let csum := (yaws.map F.cosDeg).sum
    let mean := if ssum ≠ 0 ∨ csum ≠ 0 then F.atan2Deg ssum csum else yaws.headD 0
    let diffs := yaws.map (fun yy => pyMod (yy - mean + 180) 360 - 180)
    let yaw_std := F.sqrtQ ((diffs.map (fun d => d * d)).sum / (diffs.length : ℚ))
    (pos_rms * 1000, yaw_std)

/-- The body of `StateEngine._update_tracker_stats` for one tracker's
stats record given this tick's pose option (`ok` requires a valid pose
with `tracking_result == TrackingResult_Running_OK == 200`). -/
def update_tracker_stat (F : RealFns) (now : ℚ) (pose : Option Pose)
    (st : TrackerLiveStats) : TrackerLiveStats :=
  let ok := match pose with
    | some p => p.pose_valid && p.tracking_result == 200
    | none => false
  let st1 := { st with
    dropouts := if st.prev_ok ∧ ¬ok then st.dropouts + 1 else st.dropouts,
    prev_ok := ok,
    connected := pose.isSome,
    tracking_ok := ok }
  let st2 : TrackerLiveStats := match pose with
    | some p =>
      if ok then
        let window1 : List (ℚ × Vec3 × ℚ) :=
          st1.window ++ [(now, p.position_m, pose_yaw_deg F p)]
        let window2 := window1.dropWhile (fun e : ℚ × Vec3 × ℚ => e.1 < now - 1)
        { st1 with window := window2,
                   last_pos_m := some p.position_m,
                   last_yaw_deg := pose_yaw_deg F p }
      else
        { st1 with last_pos_m := some p.position_m,
                   last_yaw_deg := pose_yaw_deg F p }
    | none => st1
  let j := compute_jitter F st2.window
  { st2 with jitter_pos_mm := j.1, jitter_yaw_deg := j.2 }

/-- One tracker object of the snapshot's `trackers` array
(`StateEngine.get_state`).  Note `"pos_m": list(st.last_pos_m) if
st.last_pos_m else None`: a 3-tuple is always truthy, so this is the
identity on the stored option. -/
structure SnapshotTracker where
  role : String
  serial : String
  connected : Bool
  tracking_ok : Bool
  dropouts : ℕ
  jitter_pos_mm : ℚ
  jitter_yaw_deg : ℚ
  pos_m : Option Vec3
  yaw_deg : ℚ

/-- The snapshot tracker entry `get_state` builds from a live stats
record. -/
def snapshot_tracker_entry (role serial : String) (st : TrackerLiveStats) :
    SnapshotTracker :=
  { role := role
    serial := serial
    connected := st.connected
    tracking_ok := st.tracking_ok
    dropouts := st.dropouts
    jitter_pos_mm := st.jitter_pos_mm
    jitter_yaw_deg := st.jitter_yaw_deg
    pos_m := match st.last_pos_m with
      | some p => some p
      | none => none
    yaw_deg := st.last_yaw_deg }

/-! ### storage.py: the save_config write model -/

/-- Model of `storage.save_config`, which runs
`paths.config_json.write_text(json.dumps(cfg, indent=2))`:
`Path.write_text` opens the file in mode `"w"` — truncating it — and then
writes the serialized string, so the visible on-disk contents are, in
order: the old content, the empty truncated file, the new content.
(A write-temp-then-rename implementation would instead visit only
`[old, new]`.) -/
def save_config_states (old new : String) : List String := [old, "", new]

/-- Atomicity with respect to interruption: every on-disk state visible
during the save is either the complete old or the complete new content. -/
def save_config_atomic (old new : String) : Prop :=
  ∀ s ∈ save_config_states old new, s = old ∨ s = new

/-! ### Concrete inputs used by witnesses and counterexamples -/

/-- Station at the origin, identity orientation (looking along `-Z`). -/
def stA : StationPose := ⟨"A", ⟨0, 0, 0⟩, idMat3⟩

/-- Station at `(0, 0, -2)`, identity orientation. -/
def stB : StationPose := ⟨"B", ⟨0, 0, -2⟩, idMat3⟩

/-- Last-known tracker position between the two stations: `stA` sees it
(it lies straight ahead), `stB` does not (it lies behind `stB`). -/
def pDrop : Vec3 := ⟨0, 0, -1⟩

/-- Diagnostic capture in which tracker `"T1"` is OK at `t=0`, drops out
at `t=1` (pose still reported at `pDrop`), and recovers at `t=2`. -/
def c1samples : List Sample :=
  [⟨0, none, [("T1", ⟨some ⟨0, 0, 0⟩, some 0, some true⟩)]⟩,
   ⟨1, none, [("T1", ⟨some pDrop, some 0, some false⟩)]⟩,
   ⟨2, none, [("T1", ⟨some ⟨0, 0, 0⟩, some 0, some true⟩)]⟩]

/-- A single tracker role map. -/
def c1roles : List (String × String) := [("T1", "Waist")]

/-- The default 2 m × 2 m play area square. -/
def pa0 : PlayArea := ⟨[(-1, -1), (1, -1), (1, 1), (-1, 1)], "default", none⟩

/-- A tiny triangular play area (3 corners) producing a 2×2 grid, used to
evaluate `compute_coverage` concretely. -/
def paTri : PlayArea := ⟨[(0, 0), (1/10, 0), (0, 1/10)], "default", none⟩

/-- A coverage result whose only relevant field is `overlap_pct_foot`. -/
def covConst (pf : ℚ) : CoverageResult :=
  { grid_origin_m := (0, 0)
    grid_step_m := 1/10
    grid_w := 1
    grid_h := 1
    inside_mask := []
    score_foot := []
    score_waist := []
    overlap_pct_foot := pf
    overlap_pct_waist := 0
    overall_score := 0
    station_sync_warning := none }

/-- Triangle with a descending non-vertical edge, on which the two
point-in-polygon implementations disagree at `(1, 1)`. -/
def triC10 : List Point2 := [(0, 0), (0, 4), (4, 0)]

/-- Axis-aligned rectangle: every edge that straddles an interior query
level is vertical. -/
def rectC10 : List Point2 := [(0, 0), (2, 0), (2, 2), (0, 2)]

/-- A valid OK pose at position `(1, 2, 3)`. -/
def poseOK : Pose := ⟨⟨1, 2, 3⟩, idMat3, true, 200⟩

/-! ## Helper lemmas -/

lemma pyMod_nonneg (x m : ℚ) (hm : 0 < m) : 0 ≤ pyMod x m := by
  have h := Int.floor_le (x / m)
  have h2 : (⌊x / m⌋ : ℚ) * m ≤ x := by
    have h3 := mul_le_mul_of_nonneg_right h (le_of_lt hm)
    rwa [div_mul_cancel₀ _ (ne_of_gt hm)] at h3
  unfold pyMod
  nlinarith

lemma pyMod_lt_right (x m : ℚ) (hm : 0 < m) : pyMod x m < m := by
  have h := Int.lt_floor_add_one (x / m)
  have h2 : x < ((⌊x / m⌋ : ℚ) + 1) * m := by
    have h3 := mul_lt_mul_of_pos_right h hm
    rwa [div_mul_cancel₀ _ (ne_of_gt hm)] at h3
  unfold pyMod
  nlinarith

lemma foldl_eq_of_step_eq {α : Type} (f g : Bool → α → Bool) :
    ∀ (l : List α) (b : Bool), (∀ e ∈ l, ∀ b', f b' e = g b' e) →
      l.foldl f b = l.foldl g b := by
  intro l
  induction l with
  | nil => intro b _; rfl
  | cons e rest ih =>
    intro b h
    simp only [List.foldl_cons]
    rw [h e (List.mem_cons_self e rest) b]
    exact ih _ (fun e' he' b' => h e' (List.mem_cons_of_mem e he') b')

lemma edgeFlip_eq_of_vertical (pt : Point2) (e : Point2 × Point2)
    (hv : (decide (e.1.2 > pt.2) ≠ decide (e.2.2 > pt.2)) → e.1.1 = e.2.1) :
    ∀ b, edgeFlipCov pt b e = edgeFlipLog pt b e := by
  intro b
  unfold edgeFlipCov edgeFlipLog
  by_cases hs : decide (e.1.2 > pt.2) ≠ decide (e.2.2 > pt.2)
  · have hx : e.2.1 - e.1.1 = 0 := by rw [hv hs]; ring
    simp only [hx, zero_mul, zero_div, zero_add]
  · simp only [hs, false_and, if_false]

/-! ## Claim C4 -/

/-- C4 counterexample: the claim asserts `wrap_deg` maps into `(-180, 180]`
with `wrap_deg 180 = 180`; in fact `wrap_deg 180 = -180`, which is not in
the open-below interval. -/
theorem wrap_deg_at_180_counterexample :
    wrap_deg 180 = -180 ∧ ¬(-180 < wrap_deg 180 ∧ wrap_deg 180 ≤ 180) := by
  have h : wrap_deg 180 = -180 := by norm_num [wrap_deg, pyMod]
  refine ⟨h, ?_⟩
  rw [h]
  norm_num

/-- C4 (amended): for every rational angle `a`, `wrap_deg a` lies in the
half-open interval `[-180, 180)` (Python float `%` takes the sign of the
modulus, so the inclusive endpoint is `-180`, not `180`). -/
theorem wrap_deg_range_amended (a : ℚ) :
    -180 ≤ wrap_deg a ∧ wrap_deg a < 180 := by
  constructor
  · have := pyMod_nonneg (a + 180) 360 (by norm_num)
    unfold wrap_deg
    linarith
  · have := pyMod_lt_right (a + 180) 360 (by norm_num)
    unfold wrap_deg
    linarith

/-! ## Claim C8 -/

/-- C8 counterexample: `save_config` writes the config file in place with
`write_text`, so the truncated empty file is a visible intermediate state;
with distinct non-empty old and new contents it is neither of them, hence
the save is not atomic. -/
theorem save_config_not_atomic_counterexample :
    ¬ save_config_atomic "old-config" "new-config" := by
  intro h
  have h2 := h "" (by simp [save_config_states])
  simp at h2

/-- C8 (amended): `save_config` rewrites `config.json` in place (truncate,
then write) rather than write-temp-then-rename; after a completed save the
file holds exactly the new content, but an interruption can additionally
expose the truncated empty file — every visible state is the old content,
the empty string, or the new content. -/
theorem save_config_states_amended (old new : String) :
    (save_config_states old new).getLast? = some new ∧
    (save_config_states old new).head? = some old ∧
    ∀ s ∈ save_config_states old new, s = old ∨ s = "" ∨ s = new := by
  refine ⟨rfl, rfl, ?_⟩
  intro s hs
  simp only [save_config_states, List.mem_cons, List.mem_singleton] at hs
  rcases hs with h | h | h | h
  · exact Or.inl h
  · exact Or.inr (Or.inl h)
  · exact Or.inr (Or.inr h)
  · cases h

/-! ## Claim C10 -/

/-- C10 counterexample: on the simple 3-corner polygon `(0,0),(0,4),(4,0)`
at query point `(1,1)` (inside the triangle), the coverage engine's
`point_in_poly` returns `true` while the historical-ingest
`_point_in_poly` returns `false`: on the descending straddling edge
`(0,4) → (4,0)` the former divides by `(y1-y0) + 1e-12 ≈ -4` and the
latter by `max(1e-9, y1-y0) = 1e-9`, flipping the ray-cast comparison. -/
theorem point_in_poly_disagree_counterexample :
    point_in_poly (1, 1) triC10 = true ∧ log_point_in_poly (1, 1) triC10 = false := by
  constructor
  · norm_num [point_in_poly, triC10, polyEdges, List.rotate, edgeFlipCov]
  · norm_num [log_point_in_poly, triC10, polyEdges, List.rotate, edgeFlipLog]

/-- C10 (amended): the two point-in-polygon implementations agree whenever
every edge that straddles the query's `y` level is vertical
(`x0 = x1`) — e.g. for axis-aligned rectangles; on general polygons they
disagree, because a descending straddling edge's denominator is
`y1-y0+1e-12` (negative) in one and `max(1e-9, y1-y0) = 1e-9` in the
other. -/
theorem point_in_poly_agree_on_vertical_straddle (pt : Point2) (poly : List Point2)
    (h : ∀ e ∈ polyEdges poly,
      (decide (e.1.2 > pt.2) ≠ decide (e.2.2 > pt.2)) → e.1.1 = e.2.1) :
    point_in_poly pt poly = log_point_in_poly pt poly := by
  unfold point_in_poly log_point_in_poly
  exact foldl_eq_of_step_eq _ _ (polyEdges poly) false
    (fun e he b => edgeFlip_eq_of_vertical pt e (h e he) b)

/-! ## Claim C1 -/

lemma dictSet_two {α : Type} (k0 k1 : String) (v0 v1 : α) (h : k0 ≠ k1) :
    dictSet (dictSet ([] : List (String × α)) k0 v0) k1 v1 = [(k0, v0), (k1, v1)] := by
  simp [dictSet, h]

lemma lookup_pair_first {α : Type} (k0 k1 : String) (v0 v1 : α) :
    ([(k0, v0), (k1, v1)] : List (String × α)).lookup k0 = some v0 := by
  simp [List.lookup]

lemma lookup_pair_second {α : Type} (k0 k1 : String) (v0 v1 : α) (h : k1 ≠ k0) :
    ([(k0, v0), (k1, v1)] : List (String × α)).lookup k1 = some v1 := by
  have hb : (k1 == k0) = false := beq_eq_false_iff_ne.mpr h
  simp [List.lookup, hb]

/-- C1 counterexample: in a diagnostic session with two stations where
the captured dropout pose `pDrop` is seen by station `"A"` but not by
station `"B"` (exactly one-sided visibility), the produced
`DropoutEvent` carries `likely_station_serial = "B"` — the serial of the
station that *fails* to see the tracker, not of "the other station" that
sees it, refuting the claim.  `station_margins_deg` does hold an entry
for both stations. -/
theorem likely_station_counterexample :
    station_sees_point_ok stA pDrop = true ∧
    station_sees_point_ok stB pDrop = false ∧
    (analyze_diagnostic_session zeroFns c1samples c1roles [stA, stB]).per_tracker.map
      (fun tm => tm.dropouts.map
        (fun e => (e.likely_station_serial, e.station_margins_deg.map Prod.fst))) =
      [[(some "B", ["A", "B"])]] := by
  refine ⟨?_, ?_, ?_⟩
  · norm_num [station_sees_point_ok, stA, pDrop, vec_sub, mat3_mul_vec3, rot_transpose, idMat3]
  · norm_num [station_sees_point_ok, stB, pDrop, vec_sub, mat3_mul_vec3, rot_transpose, idMat3]
  · norm_num [analyze_diagnostic_session, c1roles, c1samples, List.insertionSort,
      List.orderedInsert, tracker_metrics_for, trackerFinal, trackerStep, jitterUpdate,
      close_open_dropout, closeDropout, infer_likely_station, station_sees_point,
      station_sees_point_ok, yaw_pitch_from_station_to_point, vec_norm, vec_len,
      vec_sub, mat3_mul_vec3, rot_transpose, idMat3, dictSet, dictBump, yaw_bin_label,
      stA, stB, pDrop, zeroFns, List.lookup]
    simp

/-- C1 (amended): with exactly two stations and one-sided visibility of
the captured tracker position, `_infer_likely_station` returns the serial
of the station that *fails* to see the tracker (the occluded station, the
one recommended for action), and the margins dict holds an entry for both
stations (in station order). -/
theorem infer_likely_station_amended (F : RealFns) (s0 s1 : StationPose) (p : Pose)
    (hne : s0.serial ≠ s1.serial)
    (hdiff : station_sees_point_ok s0 p.position_m ≠ station_sees_point_ok s1 p.position_m) :
    (infer_likely_station F [s0, s1] p).1 =
      some (if station_sees_point_ok s0 p.position_m then s1.serial else s0.serial) ∧
    (infer_likely_station F [s0, s1] p).2.map Prod.fst = [s0.serial, s1.serial] := by
  unfold infer_likely_station
  dsimp only [List.foldl_cons, List.foldl_nil, station_sees_point]
  rw [dictSet_two _ _ _ _ hne, dictSet_two _ _ _ _ hne,
    lookup_pair_first, lookup_pair_second _ _ _ _ (Ne.symm hne)]
  dsimp only [Option.getD]
  cases hv0 : station_sees_point_ok s0 p.position_m <;>
    cases hv1 : station_sees_point_ok s1 p.position_m
  · exact absurd (hv0.trans hv1.symm) hdiff
  · simp
  · simp
  · exact absurd (hv0.trans hv1.symm) hdiff

/-- Witness for C1's amended theorem at the concrete stations `stA`,
`stB` and captured pose `pDrop`. -/
theorem infer_likely_station_witness :
    stA.serial ≠ stB.serial ∧
    station_sees_point_ok stA pDrop ≠ station_sees_point_ok stB pDrop ∧
    ((infer_likely_station zeroFns [stA, stB] ⟨pDrop, idMat3, true, 200⟩).1 =
      some (if station_sees_point_ok stA pDrop then stB.serial else stA.serial) ∧
    (infer_likely_station zeroFns [stA, stB] ⟨pDrop, idMat3, true, 200⟩).2.map Prod.fst =
      [stA.serial, stB.serial]) := by
  have h1 : stA.serial ≠ stB.serial := by simp [stA, stB]
  have h2 : station_sees_point_ok stA pDrop ≠ station_sees_point_ok stB pDrop := by
    have ha : station_sees_point_ok stA pDrop = true := by
      norm_num [station_sees_point_ok, stA, pDrop, vec_sub, mat3_mul_vec3, rot_transpose, idMat3]
    have hb : station_sees_point_ok stB pDrop = false := by
      norm_num [station_sees_point_ok, stB, pDrop, vec_sub, mat3_mul_vec3, rot_transpose, idMat3]
    rw [ha, hb]
    simp
  exact ⟨h1, h2, infer_likely_station_amended zeroFns stA stB ⟨pDrop, idMat3, true, 200⟩ h1 h2⟩

/-! ## Claim C6 -/

lemma jitterUpdate_preserves (F : RealFns) (st : TrackState) (tr : Option TrackerSample)
    (ok : Bool) (t : ℚ) :
    (jitterUpdate F st tr ok t).dropouts = st.dropouts ∧
    (jitterUpdate F st tr ok t).dropout_start = st.dropout_start := by
  unfold jitterUpdate
  cases tr with
  | none => exact ⟨rfl, rfl⟩
  | some tsam =>
    dsimp only
    split
    · split <;> exact ⟨rfl, rfl⟩
    · exact ⟨rfl, rfl⟩

lemma trackerStep_inv (F : RealFns) (stations : List StationPose) (serial : String)
    (st : TrackState) (s : Sample) (t0 : ℚ)
    (hev : ∀ e ∈ st.dropouts, e.start_s ≤ e.end_s ∧ e.duration_s = e.end_s - e.start_s)
    (hst : ∀ v, st.dropout_start = some v → v ≤ t0)
    (hlt : t0 < s.t_s) :
    (∀ e ∈ (trackerStep F stations serial st s).dropouts,
      e.start_s ≤ e.end_s ∧ e.duration_s = e.end_s - e.start_s) ∧
    (∀ v, (trackerStep F stations serial st s).dropout_start = some v → v ≤ s.t_s) := by
  obtain ⟨hjd, hjs⟩ := jitterUpdate_preserves F st (s.trackers.lookup serial)
    (match s.trackers.lookup serial with
      | none => false
      | some tsam => tsam.ok.getD false) s.t_s
  unfold trackerStep
  dsimp only
  split
  · -- dropout opens at s.t_s
    refine ⟨?_, ?_⟩
    · intro e he
      rw [hjd] at he
      exact hev e he
    · intro v hv
      rw [Option.some_inj] at hv
      exact le_of_eq hv.symm
  · split
    · split
      · -- dropout closes at s.t_s
        next v heq _ =>
        refine ⟨?_, ?_⟩
        · intro e he
          rw [hjd] at he
          rcases List.mem_append.mp he with hmem | hmem
          · exact hev e hmem
          · have hv := hst v heq
            have hvle : v ≤ s.t_s := le_of_lt (lt_of_le_of_lt hv hlt)
            rw [List.mem_singleton] at hmem
            subst hmem
            unfold closeDropout
            dsimp only
            exact ⟨hvle, max_eq_right (by linarith)⟩
        · intro u hu
          simp at hu
      · -- open dropout stays open
        next v heq _ =>
        refine ⟨?_, ?_⟩
        · intro e he
          rw [hjd] at he
          exact hev e he
        · intro u hu
          rw [hjs, heq, Option.some_inj] at hu
          subst hu
          exact le_of_lt (lt_of_le_of_lt (hst v heq) hlt)
    · -- no open dropout
      next heq =>
      refine ⟨?_, ?_⟩
      · intro e he
        rw [hjd] at he
        exact hev e he
      · intro u hu
        rw [hjs, heq] at hu
        cases hu

lemma trackerRun_inv (F : RealFns) (stations : List StationPose) (serial : String) :
    ∀ (ss : List Sample) (st : TrackState) (t0 : ℚ),
      (∀ e ∈ st.dropouts, e.start_s ≤ e.end_s ∧ e.duration_s = e.end_s - e.start_s) →
      (∀ v, st.dropout_start = some v → v ≤ t0) →
      List.Chain (· < ·) t0 (ss.map (·.t_s)) →
      (∀ e ∈ (ss.foldl (trackerStep F stations serial) st).dropouts,
        e.start_s ≤ e.end_s ∧ e.duration_s = e.end_s - e.start_s) ∧
      (∀ v, (ss.foldl (trackerStep F stations serial) st).dropout_start = some v →
        v ≤ (ss.map (·.t_s)).getLastD t0) := by
  intro ss
  induction ss with
  | nil =>
    intro st t0 hev hst _
    exact ⟨hev, by simpa using hst⟩
  | cons s rest ih =>
    intro st t0 hev hst hchain
    rw [List.map_cons, List.chain_cons] at hchain
    obtain ⟨hlt, hchain2⟩ := hchain
    have hstep := trackerStep_inv F stations serial st s t0 hev hst hlt
    simp only [List.foldl_cons, List.map_cons, List.getLastD_cons]
    exact ih (trackerStep F stations serial st s) s.t_s hstep.1 hstep.2 hchain2

lemma map_t_getLastD :
    ∀ (l : List Sample) (d : ℚ) (slast : Sample), l.getLast? = some slast →
      (l.map (·.t_s)).getLastD d = slast.t_s := by
  intro l
  induction l with
  | nil =>
    intro d slast h
    simp at h
  | cons a rest ih =>
    intro d slast h
    cases rest with
    | nil =>
      simp only [List.getLast?_singleton, Option.some_inj] at h
      subst h
      rfl
    | cons b r =>
      rw [List.getLast?_cons_cons] at h
      have h2 := ih a.t_s slast h
      simp only [List.map_cons, List.getLastD_cons] at h2 ⊢
      exact h2

/-- C6: for every non-empty sample stream with strictly increasing `t_s`,
every produced dropout event satisfies `start_s ≤ end_s`,
`duration_s = end_s - start_s ≥ 0`; every tracker's `dropout_count` equals
the number of its dropout events and `dropout_duration_s` is the sum of
their durations; and a dropout still open at end-of-stream is closed with
`end_s` equal to the last sample's `t_s`. -/
theorem dropout_metrics_invariants (F : RealFns) (samples : List Sample)
    (roles : List (String × String)) (stations : List StationPose)
    (hne : samples ≠ [])
    (hmono : (samples.map (·.t_s)).Chain' (· < ·)) :
    (∀ tm ∈ (analyze_diagnostic_session F samples roles stations).per_tracker,
      (∀ e ∈ tm.dropouts,
        e.start_s ≤ e.end_s ∧ e.duration_s = e.end_s - e.start_s ∧ 0 ≤ e.duration_s) ∧
      tm.dropout_count = tm.dropouts.length ∧
      tm.dropout_duration_s = (tm.dropouts.map (·.duration_s)).sum) ∧
    (∀ serial v, (trackerFinal F stations samples serial).dropout_start = some v →
      ∃ e slast, samples.getLast? = some slast ∧
        (close_open_dropout F stations samples
          (trackerFinal F stations samples serial)).getLast? = some e ∧
        e.end_s = slast.t_s) := by
  cases samples with
  | nil => exact absurd rfl hne
  | cons s0 rest =>
  obtain ⟨slast, hlast⟩ : ∃ slast, (s0 :: rest).getLast? = some slast :=
    ⟨(s0 :: rest).getLast (by simp), List.getLast?_eq_getLast _ (by simp)⟩
  have hchain : List.Chain (· < ·) (s0.t_s - 1) ((s0 :: rest).map (·.t_s)) := by
    rw [List.map_cons, List.chain_cons]
    refine ⟨by linarith, ?_⟩
    rw [List.map_cons] at hmono
    exact hmono
  have hrun : ∀ serial : String,
      (∀ e ∈ (trackerFinal F stations (s0 :: rest) serial).dropouts,
        e.start_s ≤ e.end_s ∧ e.duration_s = e.end_s - e.start_s) ∧
      (∀ v, (trackerFinal F stations (s0 :: rest) serial).dropout_start = some v →
        v ≤ slast.t_s) := by
    intro serial
    have h := trackerRun_inv F stations serial (s0 :: rest) {} (s0.t_s - 1)
      (by intro e he; simp at he)
      (by intro v hv; simp at hv)
      hchain
    refine ⟨h.1, ?_⟩
    intro v hv
    have h2 := h.2 v hv
    rwa [map_t_getLastD (s0 :: rest) (s0.t_s - 1) slast hlast] at h2
  have hclosed : ∀ serial : String,
      ∀ e ∈ close_open_dropout F stations (s0 :: rest)
        (trackerFinal F stations (s0 :: rest) serial),
        e.start_s ≤ e.end_s ∧ e.duration_s = e.end_s - e.start_s := by
    intro serial e he
    unfold close_open_dropout at he
    rcases hds : (trackerFinal F stations (s0 :: rest) serial).dropout_start with _ | v
    · rw [hds] at he
      exact (hrun serial).1 e he
    · rw [hds, hlast] at he
      rcases List.mem_append.mp he with hmem | hmem
      · exact (hrun serial).1 e hmem
      · rw [List.mem_singleton] at hmem
        subst hmem
        have hvle := (hrun serial).2 v hds
        unfold closeDropout
        dsimp only
        exact ⟨hvle, max_eq_right (by linarith)⟩
  constructor
  · intro tm htm
    unfold analyze_diagnostic_session at htm
    dsimp only at htm
    obtain ⟨serial, _, rfl⟩ := List.mem_map.mp htm
    unfold tracker_metrics_for
    dsimp only
    refine ⟨?_, rfl, rfl⟩
    intro e he
    obtain ⟨h1, h2⟩ := hclosed serial e he
    exact ⟨h1, h2, by linarith⟩
  · intro serial v hds
    refine ⟨closeDropout F stations v slast.t_s
      (trackerFinal F stations (s0 :: rest) serial).dropout_yaw
      (trackerFinal F stations (s0 :: rest) serial).dropout_pose, slast, hlast, ?_, rfl⟩
    unfold close_open_dropout
    rw [hds, hlast]
    exact List.getLast?_concat _

/-- Witness for C6 at the concrete three-sample capture `c1samples`. -/
theorem dropout_metrics_invariants_witness :
    c1samples ≠ [] ∧ (c1samples.map (·.t_s)).Chain' (· < ·) ∧
    ((∀ tm ∈ (analyze_diagnostic_session zeroFns c1samples c1roles []).per_tracker,
      (∀ e ∈ tm.dropouts,
        e.start_s ≤ e.end_s ∧ e.duration_s = e.end_s - e.start_s ∧ 0 ≤ e.duration_s) ∧
      tm.dropout_count = tm.dropouts.length ∧
      tm.dropout_duration_s = (tm.dropouts.map (·.duration_s)).sum) ∧
    (∀ serial v, (trackerFinal zeroFns [] c1samples serial).dropout_start = some v →
      ∃ e slast, c1samples.getLast? = some slast ∧
        (close_open_dropout zeroFns [] c1samples
          (trackerFinal zeroFns [] c1samples serial)).getLast? = some e ∧
        e.end_s = slast.t_s)) :=
  ⟨by simp [c1samples],
   by norm_num [c1samples, List.chain'_cons],
   dropout_metrics_invariants zeroFns c1samples c1roles []
     (by simp [c1samples]) (by norm_num [c1samples, List.chain'_cons])⟩

/-! ## Claim C2 -/

lemma update_last_pos (F : RealFns) (now : ℚ) (pose : Option Pose)
    (st : TrackerLiveStats) :
    (update_tracker_stat F now pose st).last_pos_m =
      match pose with
      | some p => some p.position_m
      | none => st.last_pos_m := by
  cases pose with
  | none => rfl
  | some p =>
    unfold update_tracker_stat
    simp only []
    split <;> rfl

lemma foldl_last_pos (F : RealFns) :
    ∀ (updates : List (ℚ × Option Pose)) (st : TrackerLiveStats),
      (updates.foldl (fun st u => update_tracker_stat F u.1 u.2 st) st).last_pos_m = none ↔
        (st.last_pos_m = none ∧ ∀ u ∈ updates, u.2 = none) := by
  intro updates
  induction updates with
  | nil => intro st; simp
  | cons u rest ih =>
    intro st
    simp only [List.foldl_cons, ih, update_last_pos, List.mem_cons]
    cases hu : u.2 with
    | none =>
      simp only [hu]
      constructor
      · rintro ⟨h1, h2⟩
        exact ⟨h1, fun v hv => by rcases hv with rfl | hv; exact hu; exact h2 v hv⟩
      · rintro ⟨h1, h2⟩
        exact ⟨h1, fun v hv => h2 v (Or.inr hv)⟩
    | some p =>
      simp only [hu]
      constructor
      · rintro ⟨h1, _⟩
        cases h1
      · rintro ⟨_, h2⟩
        cases h2 u (Or.inl rfl) ▸ hu

/-- C2 counterexample: a tracker that reports a valid pose at `t=0` and
then disconnects at `t=1` yields a snapshot entry with
`connected = false` but `pos_m` still holding the last position —
refuting `¬connected ⇒ pos == none`. -/
theorem snapshot_disconnected_pos_counterexample :
    (snapshot_tracker_entry "Waist" "T1"
        (update_tracker_stat zeroFns 1 none
          (update_tracker_stat zeroFns 0 (some poseOK) {}))).connected = false ∧
    (snapshot_tracker_entry "Waist" "T1"
        (update_tracker_stat zeroFns 1 none
          (update_tracker_stat zeroFns 0 (some poseOK) {}))).pos_m = some ⟨1, 2, 3⟩ := by
  constructor <;>
    norm_num [update_tracker_stat, snapshot_tracker_entry, zeroFns, poseOK,
      compute_jitter, pose_yaw_deg, forward_from_rotation, idMat3]

/-- C2 (amended): in a snapshot tracker entry, the position is the *last
reported* position; it is `none` exactly when the tracker has never
reported a pose since the stats record was created — a currently
disconnected tracker keeps its stale last position. -/
theorem snapshot_pos_none_iff_never_reported (F : RealFns) (role serial : String)
    (updates : List (ℚ × Option Pose)) :
    (snapshot_tracker_entry role serial
        (updates.foldl (fun st u => update_tracker_stat F u.1 u.2 st) {})).pos_m = none
      ↔ ∀ u ∈ updates, u.2 = none := by
  have hentry : ∀ st : TrackerLiveStats,
      (snapshot_tracker_entry role serial st).pos_m = st.last_pos_m := by
    intro st
    unfold snapshot_tracker_entry
    cases st.last_pos_m <;> rfl
  rw [hentry, foldl_last_pos]
  have hinit : (({} : TrackerLiveStats)).last_pos_m = none := rfl
  simp [hinit]

/-! ## Claim C9 -/

/-- C9: `generate_recommendations` always returns a non-empty list, the
output is sorted by the key `(rank, text)` with rank `Station A < Station
B < General` (hence all Station-A items precede all Station-B items
precede all General items, ties within a rank ordered by text), and when
no rule fires the result is exactly the single Low-confidence
run-a-60s-test message. -/
theorem recommendations_nonempty_sorted (F : RealFns) (pa : PlayArea)
    (stations : List StationPose) (coverage : Option CoverageResult)
    (metrics : Option SessionMetrics) (labels : List (String × String)) :
    generate_recommendations F pa stations coverage metrics labels ≠ [] ∧
    List.Sorted recLE (generate_recommendations F pa stations coverage metrics labels) ∧
    (recsRules F pa stations coverage metrics labels = [] →
      generate_recommendations F pa stations coverage metrics labels = [fallbackRec]) := by
  refine ⟨?_, ?_, ?_⟩
  · unfold generate_recommendations
    have h2 : (if (recsRules F pa stations coverage metrics labels).isEmpty then [fallbackRec]
        else recsRules F pa stations coverage metrics labels) ≠ [] := by
      split
      · simp
      · next hfalse =>
        intro hc
        rw [hc] at hfalse
        simp at hfalse
    intro hcon
    apply h2
    have hlen := congrArg List.length hcon
    simp only [List.length_insertionSort, List.length_nil] at hlen
    exact List.eq_nil_of_length_eq_zero hlen
  · unfold generate_recommendations
    exact List.sorted_insertionSort recLE _
  · intro h
    unfold generate_recommendations
    rw [h]
    simp [List.insertionSort, List.orderedInsert]

/-! ## Claim C3 -/

/-- C3 counterexample: at `overlap_pct_foot` exactly `35`, the claim says
the low-overlap recommendation has confidence `"Med"`; the source uses a
strict `> 35.0` test for `"Med"`, so the emitted recommendation has
confidence `"High"`. -/
theorem low_overlap_confidence_at_35_counterexample :
    (covConst 35).overlap_pct_foot = 35 ∧
    (generate_recommendations zeroFns pa0 [] (some (covConst 35)) none []).map
        (fun r => (r.target, r.confidence)) = [("General", "High")] := by
  constructor
  · norm_num [covConst]
  · norm_num [generate_recommendations, recsRules, covConst, likelyStationCounts,
      worstYawBin, List.insertionSort, List.orderedInsert]

/-- C3 (amended): whenever `overlap_pct_foot < 55`, `generate_recommendations`
emits the General higher-mounts/more-tilt recommendation, and its
confidence is `"Med"` exactly when `overlap_pct_foot > 35` and `"High"`
otherwise — in particular `"High"` (not `"Med"`) at exactly `35`. -/
theorem low_overlap_recommendation_amended (F : RealFns) (pa : PlayArea)
    (stations : List StationPose) (cov : CoverageResult)
    (metrics : Option SessionMetrics) (labels : List (String × String))
    (h : cov.overlap_pct_foot < 55) :
    ∃ r ∈ generate_recommendations F pa stations (some cov) metrics labels,
      r.target = "General" ∧
      r.text = "Foot-height 2-station overlap is low (" ++ F.fmtF1 cov.overlap_pct_foot ++
        "%). Favor higher mounts and slightly more downward tilt to improve tracker visibility near the floor." ∧
      r.confidence = (if 35 < cov.overlap_pct_foot then "Med" else "High") := by
  have hmem : (⟨"General",
      "Foot-height 2-station overlap is low (" ++ F.fmtF1 cov.overlap_pct_foot ++
        "%). Favor higher mounts and slightly more downward tilt to improve tracker visibility near the floor.",
      if 35 < cov.overlap_pct_foot then "Med" else "High"⟩ : Recommendation) ∈
      recsRules F pa stations (some cov) metrics labels := by
    unfold recsRules
    simp only []
    apply List.mem_append_left
    apply List.mem_append_left
    apply List.mem_append_left
    rw [if_pos h]
    exact List.mem_singleton_self _
  refine ⟨⟨"General",
    "Foot-height 2-station overlap is low (" ++ F.fmtF1 cov.overlap_pct_foot ++
      "%). Favor higher mounts and slightly more downward tilt to improve tracker visibility near the floor.",
    if 35 < cov.overlap_pct_foot then "Med" else "High"⟩, ?_, rfl, rfl, rfl⟩
  cases hl : recsRules F pa stations (some cov) metrics labels with
  | nil =>
    rw [hl] at hmem
    exact absurd hmem (List.not_mem_nil _)
  | cons a rest =>
    unfold generate_recommendations
    rw [hl]
    simp only [List.isEmpty_cons, Bool.false_eq_true, if_false, List.mem_insertionSort]
    rw [← hl]
    exact hmem

/-- Witness for C3's amended theorem at `overlap_pct_foot = 34`. -/
theorem low_overlap_recommendation_witness :
    (covConst 34).overlap_pct_foot < 55 ∧
    ∃ r ∈ generate_recommendations zeroFns pa0 [] (some (covConst 34)) none [],
      r.target = "General" ∧
      r.text = "Foot-height 2-station overlap is low (" ++
        zeroFns.fmtF1 (covConst 34).overlap_pct_foot ++
        "%). Favor higher mounts and slightly more downward tilt to improve tracker visibility near the floor." ∧
      r.confidence = (if 35 < (covConst 34).overlap_pct_foot then "Med" else "High") :=
  ⟨by norm_num [covConst],
   low_overlap_recommendation_amended zeroFns pa0 [] (covConst 34) none []
     (by norm_num [covConst])⟩

/-! ## Claims C5 and C7: coverage invariants -/

lemma zip_map_triple {α β γ δ : Type} (l : List α) (f : α → β) (g : α → γ) (k : α → δ) :
    (l.map f).zip ((l.map g).zip (l.map k)) = l.map (fun a => (f a, (g a, k a))) := by
  induction l with
  | nil => rfl
  | cons a rest ih => simp [ih]

lemma mem_coverageCells {F : RealFns} {corners : List Point2}
    {stations : List StationPose} {centroid : Point2}
    {max_r fz wz minx miny step : ℚ} {w h : ℕ} {c : CovCell}
    (hc : c ∈ coverageCells F corners stations centroid max_r fz wz minx miny step w h) :
    ∃ x y, c = coverageCell F corners stations centroid max_r fz wz x y := by
  unfold coverageCells at hc
  simp only [List.mem_flatMap, List.mem_map, List.mem_range] at hc
  obtain ⟨yi, _, xi, _, rfl⟩ := hc
  exact ⟨_, _, rfl⟩

lemma coverageCell_outside {F : RealFns} {corners : List Point2}
    {stations : List StationPose} {centroid : Point2} {max_r fz wz x y : ℚ}
    (h : (coverageCell F corners stations centroid max_r fz wz x y).inside = false) :
    (coverageCell F corners stations centroid max_r fz wz x y).sf = 0 ∧
    (coverageCell F corners stations centroid max_r fz wz x y).sw = 0 := by
  unfold coverageCell at h ⊢
  dsimp only at h ⊢
  by_cases hin : point_in_poly (x, y) corners = true
  · rw [if_pos hin] at h
    simp at h
  · rw [if_neg hin]
    exact ⟨rfl, rfl⟩

lemma coverageCell_bounds (F : RealFns) (corners : List Point2)
    (stations : List StationPose) (centroid : Point2) (max_r fz wz x y : ℚ) :
    0 ≤ (coverageCell F corners stations centroid max_r fz wz x y).cw ∧
    0 ≤ (coverageCell F corners stations centroid max_r fz wz x y).cs ∧
    (coverageCell F corners stations centroid max_r fz wz x y).cs ≤ 1 := by
  unfold coverageCell
  dsimp only
  by_cases hin : point_in_poly (x, y) corners = true
  · rw [if_pos hin]
    dsimp only
    refine ⟨?_, ?_, ?_⟩
    · nlinarith [sq_nonneg (1 - min 1 (F.hypotQ (x - centroid.1) (y - centroid.2) / max_r))]
    · positivity
    · have hf : ((min 2 (stations.countP (fun s => (station_sees_point F s ⟨x, y, fz⟩).1)) : ℕ) : ℚ) ≤ 2 := by
        exact_mod_cast Nat.min_le_left _ _
      have hw : ((min 2 (stations.countP (fun s => (station_sees_point F s ⟨x, y, wz⟩).1)) : ℕ) : ℚ) ≤ 2 := by
        exact_mod_cast Nat.min_le_left _ _
      linarith
  · rw [if_neg hin]
    norm_num

lemma coverageCell_single_sf (F : RealFns) (corners : List Point2) (s : StationPose)
    (centroid : Point2) (max_r fz wz x y : ℚ) :
    (coverageCell F corners [s] centroid max_r fz wz x y).sf ≤ 1 := by
  unfold coverageCell
  dsimp only
  by_cases hin : point_in_poly (x, y) corners = true
  · rw [if_pos hin]
    dsimp only
    calc min 2 (List.countP (fun t => (station_sees_point F t ⟨x, y, fz⟩).1) [s])
        ≤ List.countP (fun t => (station_sees_point F t ⟨x, y, fz⟩).1) [s] :=
          Nat.min_le_right _ _
      _ ≤ [s].length := List.countP_le_length _
      _ = 1 := rfl
  · rw [if_neg hin]
    exact Nat.zero_le 1

lemma mask_invariant (cells : List CovCell)
    (h : ∀ c ∈ cells, c.inside = false → c.sf = 0 ∧ c.sw = 0) :
    ∀ p ∈ (cells.map (·.inside)).zip ((cells.map (·.sf)).zip (cells.map (·.sw))),
      p.1 = false → p.2.1 = 0 ∧ p.2.2 = 0 := by
  intro p hp
  rw [zip_map_triple] at hp
  obtain ⟨c, hc, rfl⟩ := List.mem_map.mp hp
  exact fun hfalse => h c hc hfalse

lemma pct_expr_bounds (o n : ℕ) (hle : o ≤ n) :
    0 ≤ (if n = 0 then (0 : ℚ) else 100 * o / n) ∧
    (if n = 0 then (0 : ℚ) else 100 * o / n) ≤ 100 := by
  split
  · norm_num
  · next hn =>
    have hn' : (0 : ℚ) < n := by
      have := Nat.pos_of_ne_zero hn
      exact_mod_cast this
    constructor
    · positivity
    · rw [div_le_iff₀ hn']
      have : (o : ℚ) ≤ (n : ℚ) := by exact_mod_cast hle
      nlinarith

lemma overall_expr_bounds (ws wm : ℚ) (h0 : 0 ≤ ws) (h1 : ws ≤ wm) :
    0 ≤ (if wm ≤ 1e-9 then (0 : ℚ) else 100 * (ws / wm)) ∧
    (if wm ≤ 1e-9 then (0 : ℚ) else 100 * (ws / wm)) ≤ 100 := by
  split
  · norm_num
  · next hn =>
    have hw : (0 : ℚ) < wm := by
      rw [not_le] at hn
      calc (0 : ℚ) < 1e-9 := by norm_num
        _ < wm := hn
    constructor
    · positivity
    · have h2 : ws / wm ≤ 1 := (div_le_one hw).mpr h1
      nlinarith

lemma sums_bounds {F : RealFns} {corners : List Point2}
    {stations : List StationPose} {centroid : Point2}
    {max_r fz wz minx miny step : ℚ} {w h : ℕ} :
    0 ≤ ((coverageCells F corners stations centroid max_r fz wz minx miny step w h).map
          (fun c => c.cw * c.cs)).sum ∧
    ((coverageCells F corners stations centroid max_r fz wz minx miny step w h).map
          (fun c => c.cw * c.cs)).sum ≤
      ((coverageCells F corners stations centroid max_r fz wz minx miny step w h).map
          (fun c => c.cw)).sum := by
  constructor
  · apply List.sum_nonneg
    intro q hq
    obtain ⟨c, hc, rfl⟩ := List.mem_map.mp hq
    obtain ⟨x, y, rfl⟩ := mem_coverageCells hc
    obtain ⟨h1, h2, _⟩ := coverageCell_bounds F corners stations centroid max_r fz wz x y
    exact mul_nonneg h1 h2
  · apply List.sum_le_sum
    intro c hc
    obtain ⟨x, y, rfl⟩ := mem_coverageCells hc
    obtain ⟨h1, _, h3⟩ := coverageCell_bounds F corners stations centroid max_r fz wz x y
    exact mul_le_of_le_one_right h1 h3

/-- C5: for every play area with at least 3 corners and every station
list, `compute_coverage` satisfies: cells outside the polygon have zero
foot and waist scores, both overlap percentages lie in `[0, 100]`, and
the overall score lies in `[0, 100]`. -/
theorem coverage_invariants (F : RealFns) (pa : PlayArea) (stations : List StationPose)
    (step fz wz : ℚ) (_h3 : 3 ≤ pa.corners_m.length) :
    (∀ p ∈ (compute_coverage F pa stations step fz wz).inside_mask.zip
        (((compute_coverage F pa stations step fz wz).score_foot).zip
          ((compute_coverage F pa stations step fz wz).score_waist)),
      p.1 = false → p.2.1 = 0 ∧ p.2.2 = 0) ∧
    0 ≤ (compute_coverage F pa stations step fz wz).overlap_pct_foot ∧
    (compute_coverage F pa stations step fz wz).overlap_pct_foot ≤ 100 ∧
    0 ≤ (compute_coverage F pa stations step fz wz).overlap_pct_waist ∧
    (compute_coverage F pa stations step fz wz).overlap_pct_waist ≤ 100 ∧
    0 ≤ (compute_coverage F pa stations step fz wz).overall_score ∧
    (compute_coverage F pa stations step fz wz).overall_score ≤ 100 := by
  dsimp only [compute_coverage]
  refine ⟨?_, ?_, ?_, ?_, ?_, ?_, ?_⟩
  · apply mask_invariant
    intro c hc hfalse
    obtain ⟨x, y, rfl⟩ := mem_coverageCells hc
    exact coverageCell_outside hfalse
  · exact (pct_expr_bounds _ _ (List.countP_mono_left
      (fun c _ hp => by simpa using (Bool.and_eq_true _ _ |>.mp hp).1))).1
  · exact (pct_expr_bounds _ _ (List.countP_mono_left
      (fun c _ hp => by simpa using (Bool.and_eq_true _ _ |>.mp hp).1))).2
  · exact (pct_expr_bounds _ _ (List.countP_mono_left
      (fun c _ hp => by simpa using (Bool.and_eq_true _ _ |>.mp hp).1))).1
  · exact (pct_expr_bounds _ _ (List.countP_mono_left
      (fun c _ hp => by simpa using (Bool.and_eq_true _ _ |>.mp hp).1))).2
  · exact (overall_expr_bounds _ _ sums_bounds.1 sums_bounds.2).1
  · exact (overall_expr_bounds _ _ sums_bounds.1 sums_bounds.2).2

/-- Witness for C5 at a concrete 3-corner play area with no stations. -/
theorem coverage_invariants_witness :
    3 ≤ paTri.corners_m.length ∧
    ((∀ p ∈ (compute_coverage zeroFns paTri [] (1/10) (15/100) 1).inside_mask.zip
        (((compute_coverage zeroFns paTri [] (1/10) (15/100) 1).score_foot).zip
          ((compute_coverage zeroFns paTri [] (1/10) (15/100) 1).score_waist)),
      p.1 = false → p.2.1 = 0 ∧ p.2.2 = 0) ∧
    0 ≤ (compute_coverage zeroFns paTri [] (1/10) (15/100) 1).overlap_pct_foot ∧
    (compute_coverage zeroFns paTri [] (1/10) (15/100) 1).overlap_pct_foot ≤ 100 ∧
    0 ≤ (compute_coverage zeroFns paTri [] (1/10) (15/100) 1).overlap_pct_waist ∧
    (compute_coverage zeroFns paTri [] (1/10) (15/100) 1).overlap_pct_waist ≤ 100 ∧
    0 ≤ (compute_coverage zeroFns paTri [] (1/10) (15/100) 1).overall_score ∧
    (compute_coverage zeroFns paTri [] (1/10) (15/100) 1).overall_score ≤ 100) :=
  ⟨by norm_num [paTri],
   coverage_invariants zeroFns paTri [] (1/10) (15/100) 1 (by norm_num [paTri])⟩

/-- C7: with exactly one station the foot-height two-station overlap is
`0` and the sync warning is `none` (it requires exactly two stations). -/
theorem single_station_coverage (F : RealFns) (pa : PlayArea) (s : StationPose)
    (step fz wz : ℚ) (_h3 : 3 ≤ pa.corners_m.length) :
    (compute_coverage F pa [s] step fz wz).overlap_pct_foot = 0 ∧
    (compute_coverage F pa [s] step fz wz).station_sync_warning = none := by
  constructor
  · dsimp only [compute_coverage]
    have hzero : (coverageCells F pa.corners_m [s] pa.centroid
        (max 1e-6 (listMax (pa.corners_m.map
          (fun c => F.hypotQ (c.1 - pa.centroid.1) (c.2 - pa.centroid.2)))))
        fz wz (listMin (pa.corners_m.map Prod.fst)) (listMin (pa.corners_m.map Prod.snd))
        step
        (max 1 (Int.toNat (⌈(listMax (pa.corners_m.map Prod.fst) -
          listMin (pa.corners_m.map Prod.fst)) / step⌉ + 1)))
        (max 1 (Int.toNat (⌈(listMax (pa.corners_m.map Prod.snd) -
          listMin (pa.corners_m.map Prod.snd)) / step⌉ + 1)))).countP
        (fun c => c.inside && decide (c.sf = 2)) = 0 := by
      rw [List.countP_eq_zero]
      intro c hc
      obtain ⟨x, y, rfl⟩ := mem_coverageCells hc
      have hle := coverageCell_single_sf F pa.corners_m s pa.centroid
        (max 1e-6 (listMax (pa.corners_m.map
          (fun c => F.hypotQ (c.1 - pa.centroid.1) (c.2 - pa.centroid.2))))) fz wz x y
      simp only [Bool.and_eq_true, decide_eq_true_eq, not_and]
      intro _ hsf
      omega
    rw [hzero]
    split
    · rfl
    · norm_num
  · rfl

/-- Witness for C7 at the concrete triangular play area and station `stA`. -/
theorem single_station_coverage_witness :
    3 ≤ paTri.corners_m.length ∧
    ((compute_coverage zeroFns paTri [stA] (1/10) (15/100) 1).overlap_pct_foot = 0 ∧
     (compute_coverage zeroFns paTri [stA] (1/10) (15/100) 1).station_sync_warning = none) :=
  ⟨by norm_num [paTri],
   single_station_coverage zeroFns paTri stA (1/10) (15/100) 1 (by norm_num [paTri])⟩

/-- Witness for C10's amended theorem: the axis-aligned rectangle
`rectC10` with query point `(1,1)` satisfies the vertical-straddle
hypothesis, and the two implementations agree there. -/
theorem point_in_poly_agree_witness :
    (∀ e ∈ polyEdges rectC10,
      (decide (e.1.2 > (1 : ℚ)) ≠ decide (e.2.2 > (1 : ℚ))) → e.1.1 = e.2.1) ∧
    point_in_poly (1, 1) rectC10 = log_point_in_poly (1, 1) rectC10 :=
  ⟨by norm_num [polyEdges, rectC10, List.rotate],
   point_in_poly_agree_on_vertical_straddle (1, 1) rectC10
     (by norm_num [polyEdges, rectC10, List.rotate])⟩

end LLC
